import Mathlib

/- Shallow embedding of the mitra-platform-sdk authenticated-request core:
   `HttpClient.request` / `MitraApiError` (src/utils/http-client.ts) and
   `AuthModule` (src/modules/auth.ts).  Network I/O is supplied by explicit
   response oracles; browser storage is a single slot per store. -/

namespace SDK

/-- HTTP methods accepted by `RequestOptions.method`. -/
inductive Method
  | get | post | put | delete | patch
deriving DecidableEq, Repr

/-- JavaScript values that can appear as the `body` argument of
`HttpClient.request` (enough structure to decide truthiness, as the code
does with `body ? JSON.stringify(body) : undefined`). -/
inductive JsVal
  | undef
  | null
  | bool (b : Bool)
  | num (n : Int)
  | str (s : String)
  | obj (id : Nat)
deriving DecidableEq, Repr

/-- JavaScript truthiness of a body value. -/
def JsVal.truthy : JsVal → Bool
  | .undef => false
  | .null => false
  | .bool b => b
  | .num n => n != 0
  | .str s => s != ""
  | .obj _ => true

/-- Model of `JSON.stringify` on a body value; object payloads are kept
as an identity tag since their serialized text is never inspected by the
client. -/
def stringifyBody : JsVal → String
  | .undef => "undefined"
  | .null => "null"
  | .bool b => if b then "true" else "false"
  | .num n => toString n
  | .str s => "\"" ++ s ++ "\""
  | .obj id => "object" ++ toString id

/-- Primitive query-parameter values (`string | number | boolean`);
`undefined` entries are modeled by `Option.none` at the entry level. -/
inductive PrimVal
  | str (s : String)
  | num (n : Int)
  | bool (b : Bool)
deriving DecidableEq, Repr

/-- JavaScript `String(value)` on a query-parameter value. -/
def primToString : PrimVal → String
  | .str s => s
  | .num n => toString n
  | .bool b => if b then "true" else "false"

/-- Uppercase hex digit, for percent-encoding. -/
def hexDigit (n : Nat) : Char :=
  if n < 10 then Char.ofNat (48 + n) else Char.ofNat (55 + n)

/-- Percent-encoding of one byte. -/
def byteHex (b : UInt8) : String :=
  String.mk ['%', hexDigit (b.toNat / 16), hexDigit (b.toNat % 16)]

/-- Model of `URLSearchParams` form-encoding of one component. -/
def formEncode (s : String) : String :=
  String.join (s.data.map (fun c =>
    if c = ' ' then "+"
    else if c.isAlphanum || c = '*' || c = '-' || c = '.' || c = '_' then String.mk [c]
    else String.join ((String.mk [c]).toUTF8.toList.map byteHex)))

/-- Model of the `URLSearchParams` loop in `HttpClient.request`: entries
whose value is `undefined` are skipped, the rest are appended as
`key=String(value)` form-encoded pairs. -/
def queryString (params : List (String × Option PrimVal)) : String :=
  String.intercalate "&"
    (params.filterMap (fun kv =>
      kv.2.map (fun v => formEncode kv.1 ++ "=" ++ formEncode (primToString v))))

/-- JavaScript object key update: an existing key keeps its position and
gets the new value, a new key is appended (models spread-merge order). -/
def upsert (m : List (String × String)) (k v : String) : List (String × String) :=
  if m.any (fun kv => kv.1 == k) then
    m.map (fun kv => if kv.1 == k then (k, v) else kv)
  else m ++ [(k, v)]

/-- Spread-merge of header objects (`{...base, ...upd}`). -/
def mergeInto (m upd : List (String × String)) : List (String × String) :=
  upd.foldl (fun acc kv => upsert acc kv.1 kv.2) m

/-- The body of an error response as far as the client inspects it: the
optional `message` and `error_code` fields, plus an identity tag for the
rest of the parsed JSON value.  A response whose `json()` rejects is
modeled as `Option.none` at the use site. -/
structure BodyVal where
  message : Option String
  errorCode : Option String
  valId : Nat
deriving DecidableEq, Repr

/-- One network-level reply observed by `fetch`: either an HTTP response
with a status and a (possibly unparseable) JSON body, or a transport
failure (the `fetch` promise rejects). -/
inductive NetResponse
  | reply (status : Nat) (body : Option BodyVal)
  | netFail
deriving DecidableEq, Repr

/-- The `details` payload of a `MitraApiError`: the parsed error body, or
the empty object produced by `.catch(() => ({}))` when parsing fails. -/
inductive ErrDetails
  | parsed (b : BodyVal)
  | emptyObj
deriving DecidableEq, Repr

/-- The `MitraApiError` class of src/utils/http-client.ts. -/
structure MitraApiError where
  message : String
  status : Nat
  code : Option String
  details : ErrDetails
deriving DecidableEq, Repr

/-- The template-literal fallback message. -/
def fallbackMsg (status : Nat) : String :=
  "Request failed with status " ++ toString status

/-- Error construction in `HttpClient.request`:
`new MitraApiError(errorBody.message || fallback, status, errorBody.error_code, errorBody)`,
where `errorBody` is `{}` when the body is not parseable JSON.  A present
but empty `message` string is falsy in JavaScript, hence also falls back. -/
def mkApiError (status : Nat) (body : Option BodyVal) : MitraApiError :=
  match body with
  | none => { message := fallbackMsg status, status := status, code := none, details := .emptyObj }
  | some b =>
      { message :=
          match b.message with
          | some m => if m = "" then fallbackMsg status else m
          | none => fallbackMsg status
        status := status
        code := b.errorCode
        details := .parsed b }

/-- Configuration of one `HttpClient`.  The unauthorized-callback is
abstracted by the boolean it resolves to (`none` = not configured); the
global error hook by whether it is configured. -/
structure HttpClientCfg where
  baseUrl : String
  onUnauthorized : Option Bool := none
  hasOnError : Bool := false
  defaultHeaders : List (String × String) := []
deriving DecidableEq, Repr

/-- The constructor's `config.baseUrl.replace(/\/$/, '')`: strips one
trailing slash. -/
def stripTrailingSlash (s : String) : String :=
  if s.endsWith "/" then s.dropRight 1 else s

/-- The `RequestOptions` of src/utils/http-client.ts (minus `isRetry`,
which is threaded explicitly through the execution model). -/
structure RequestOptions where
  method : Method := .get
  body : JsVal := .undef
  headers : List (String × String) := []
  params : List (String × Option PrimVal) := []
deriving DecidableEq, Repr

/-- One call handed to `fetch`: final URL, method, merged headers and the
serialized body (absent when the body argument is falsy). -/
structure FetchCall where
  url : String
  method : Method
  headers : List (String × String)
  body : Option String
deriving DecidableEq, Repr

/-- Builds the `fetch` arguments exactly as `HttpClient.request` does:
base URL + path + encoded query string; `Content-Type: application/json`
then spread of default headers then per-call headers, then the
`Authorization: Bearer <token>` assignment when the token is truthy;
body serialized only when truthy. -/
def mkFetchCall (cfg : HttpClientCfg) (path : String) (opts : RequestOptions)
    (token : Option String) : FetchCall :=
  let qs := queryString opts.params
  let url := cfg.baseUrl ++ path ++ (if qs = "" then "" else "?" ++ qs)
  let hs := mergeInto (mergeInto [("Content-Type", "application/json")] cfg.defaultHeaders)
      opts.headers
  let hs :=
    match token with
    | some t => if t = "" then hs else upsert hs "Authorization" ("Bearer " ++ t)
    | none => hs
  { url := url, method := opts.method, headers := hs,
    body := if opts.body.truthy then some (stringifyBody opts.body) else none }

/-- The outcome `HttpClient.request` delivers to its caller. -/
inductive ReqOutcome
  | success (v : BodyVal)
  | noContent
  | apiError (e : MitraApiError)
  | parseError
  | netError
deriving DecidableEq, Repr

/-- An execution of `HttpClient.request`: the caller-visible outcome, the
network calls issued (in order), and the errors passed to the global
`onError` hook (in order). -/
structure RunResult where
  outcome : ReqOutcome
  calls : List FetchCall
  hookCalls : List MitraApiError
deriving DecidableEq, Repr

/-- Shared error tail of `HttpClient.request`: build the `MitraApiError`,
invoke `onError` if configured, throw. -/
def finishFail (cfg : HttpClientCfg) (status : Nat) (body : Option BodyVal)
    (call : FetchCall) : RunResult :=
  let e := mkApiError status body
  { outcome := .apiError e, calls := [call],
    hookCalls := if cfg.hasOnError then [e] else [] }

/-- Success tail of `HttpClient.request`: a 204 yields no content without
parsing, any other 2xx parses the body (a rejecting `json()` rejects the
request). -/
def handleOk (call : FetchCall) (status : Nat) (body : Option BodyVal) : RunResult :=
  if status = 204 then { outcome := .noContent, calls := [call], hookCalls := [] }
  else
    match body with
    | some v => { outcome := .success v, calls := [call], hookCalls := [] }
    | none => { outcome := .parseError, calls := [call], hookCalls := [] }

/-- Transcription of `HttpClient.request`.  `net i` / `tok i` give the
network response and the value of the token-getter at attempt `i`.  The
`isRetry` flag is modeled as a remaining-retry budget: `retries = 1` is a
fresh call (`isRetry` absent), `retries = 0` is the retried call
(`isRetry: true`) — in that execution the `!isRetry` guard is statically
false, so its branch is omitted from the `0` case. -/
def requestAux (cfg : HttpClientCfg) (net : Nat → NetResponse) (tok : Nat → Option String)
    (path : String) (opts : RequestOptions) : Nat → Nat → RunResult
  | 0, i =>
    let call := mkFetchCall cfg path opts (tok i)
    match net i with
    | .netFail => { outcome := .netError, calls := [call], hookCalls := [] }
    | .reply status body =>
      if 200 ≤ status ∧ status < 300 then handleOk call status body
      else finishFail cfg status body call
  | r + 1, i =>
    let call := mkFetchCall cfg path opts (tok i)
    match net i with
    | .netFail => { outcome := .netError, calls := [call], hookCalls := [] }
    | .reply status body =>
      if 200 ≤ status ∧ status < 300 then handleOk call status body
      else
        match cfg.onUnauthorized with
        | some refreshed =>
          if status = 401 then
            if refreshed then
              let rest := requestAux cfg net tok path opts r (i + 1)
              { outcome := rest.outcome, calls := call :: rest.calls,
                hookCalls := rest.hookCalls }
            else finishFail cfg status body call
          else finishFail cfg status body call
        | none => finishFail cfg status body call

/-- A top-level call to `HttpClient.request` (not a retry). -/
def request (cfg : HttpClientCfg) (net : Nat → NetResponse) (tok : Nat → Option String)
    (path : String) (opts : RequestOptions) : RunResult :=
  requestAux cfg net tok path opts 1 0

/-- The processing of a single attempt with the retry suppressed
(`isRetry: true`): what "the result of the second call" means. -/
def singleAttempt (cfg : HttpClientCfg) (net : Nat → NetResponse) (tok : Nat → Option String)
    (path : String) (opts : RequestOptions) (i : Nat) : RunResult :=
  requestAux cfg net tok path opts 0 i

/- ------------------------------------------------------------------ -/
/- AuthModule (src/modules/auth.ts)                                    -/
/- ------------------------------------------------------------------ -/

/-- The `User` record of src/modules/auth.types.ts. -/
structure User where
  id : String
  tenantId : String
  email : String
  name : Option String
deriving DecidableEq, Repr

/-- The `AuthTokenResponse` of src/modules/auth.types.ts. -/
structure AuthTokenResponse where
  accessToken : String
  refreshToken : String
  tokenType : String
deriving DecidableEq, Repr

/-- How a failed `HttpClient` call is classified by `AuthModule.me`
(`error instanceof MitraApiError && error.status === 401`): a
`MitraApiError` carrying a status, or any other rejection (network
failure, JSON parse failure). -/
inductive AuthErr
  | api (status : Nat)
  | other
deriving DecidableEq, Repr

/-- In-memory session fields of `AuthModule`
(`_currentUser`, `_accessToken`, `_refreshToken`). -/
structure Session where
  currentUser : Option User
  accessToken : Option String
  refreshToken : Option String
deriving DecidableEq, Repr

/-- The record `saveToStorage` writes under `mitra_auth_<appId>` and
`loadFromStorage` destructures.  The outer `Option` on `refreshToken`
distinguishes a missing field (`undefined`, hit by `?? null`) from a
present one.  The JSON text serialization is modeled by the record
itself: the claim set assumes the storage backend returns the written
text unchanged, and `JSON.parse ∘ JSON.stringify` is the identity on
such records. -/
structure StoredAuth where
  user : Option User
  token : Option String
  refreshToken : Option (Option String)
deriving DecidableEq, Repr

/-- Full state of one `AuthModule` instance: session fields, the storage
slot it owns, and the single-flight `refreshPromise`.  In the
cooperative single-threaded model a pending refresh promise is
represented by the boolean it is determined to settle to (the network
oracle fixes the outcome the moment the operation starts). -/
structure AuthState where
  session : Session
  storage : Option StoredAuth
  pending : Option Bool
deriving DecidableEq, Repr

/-- JavaScript falsiness of a nullable token string (`!this._refreshToken`
is true for both `null` and the empty string). -/
def strFalsy : Option String → Bool
  | none => true
  | some s => s == ""

/-- Tags for the network calls `AuthModule` issues and for listener
notifications, so executions can be compared for "no network call" /
"no notification". -/
inductive AuthCall
  | tokenReq | registerReq | meReq | refreshReq
deriving DecidableEq, Repr

/-- Observable events of one `AuthModule` operation, in order. -/
inductive AuthEvent
  | call (c : AuthCall)
  | notify (payload : Option User)
deriving DecidableEq, Repr

/-- `saveToStorage`: mirror the three fields into the slot. -/
def saveToStorage (st : AuthState) : AuthState :=
  { st with storage := some { user := st.session.currentUser,
                              token := st.session.accessToken,
                              refreshToken := some st.session.refreshToken } }

/-- `setAuthState`: set all three fields, persist, notify. -/
def setAuthState (st : AuthState) (user : User) (token refreshTok : String) :
    AuthState × AuthEvent :=
  let st1 : AuthState :=
    { st with session := { currentUser := some user, accessToken := some token,
                           refreshToken := some refreshTok } }
  (saveToStorage st1, .notify (some user))

/-- `clearAuthState`: clear all three fields, remove the slot, notify. -/
def clearAuthState (st : AuthState) : AuthState × AuthEvent :=
  ({ st with session := { currentUser := none, accessToken := none, refreshToken := none },
             storage := none },
   .notify none)

/-- `AuthModule`'s constructor over an existing storage slot: fields start
null, then `loadFromStorage` destructures the stored record
(`refreshToken ?? null`). -/
def construct (slot : Option StoredAuth) : AuthState :=
  match slot with
  | none => { session := { currentUser := none, accessToken := none, refreshToken := none },
              storage := none, pending := none }
  | some rec =>
      { session := { currentUser := rec.user, accessToken := rec.token,
                     refreshToken := rec.refreshToken.getD none },
        storage := some rec, pending := none }

/-- `AuthModule.signIn`: POST the credentials to the token endpoint, set
the two token fields, GET `/api/v1/auth/me`, then `setAuthState`.  The
two oracle arguments are the outcomes of those calls; errors propagate
to the caller. -/
def signIn (tokenResp : Except AuthErr AuthTokenResponse) (meResp : Except AuthErr User)
    (st : AuthState) : Except AuthErr User × AuthState × List AuthEvent :=
  match tokenResp with
  | .error e => (.error e, st, [.call .tokenReq])
  | .ok tr =>
      let st1 : AuthState :=
        { st with session := { st.session with accessToken := some tr.accessToken,
                                               refreshToken := some tr.refreshToken } }
      match meResp with
      | .error e => (.error e, st1, [.call .tokenReq, .call .meReq])
      | .ok user =>
          let (st2, ev) := setAuthState st1 user tr.accessToken tr.refreshToken
          (.ok user, st2, [.call .tokenReq, .call .meReq, ev])

/-- `AuthModule.signUp`: register (no state change), then `signIn`. -/
def signUp (regResp : Except AuthErr Unit) (tokenResp : Except AuthErr AuthTokenResponse)
    (meResp : Except AuthErr User) (st : AuthState) :
    Except AuthErr User × AuthState × List AuthEvent :=
  match regResp with
  | .error e => (.error e, st, [.call .registerReq])
  | .ok _ =>
      let (r, st1, evs) := signIn tokenResp meResp st
      (r, st1, .call .registerReq :: evs)

/-- `AuthModule.signOut` (the state part; navigation is out of scope). -/
def signOut (st : AuthState) : AuthState × List AuthEvent :=
  let (st1, ev) := clearAuthState st
  (st1, [ev])

/-- `AuthModule.doRefresh`: POST the refresh token, set the token fields,
GET `/api/v1/auth/me`, `setAuthState` and return true; any rejection in
that sequence is caught, `clearAuthState` runs and false is returned. -/
def doRefresh (refreshResp : Except AuthErr AuthTokenResponse) (meResp : Except AuthErr User)
    (st : AuthState) : Bool × AuthState × List AuthEvent :=
  match refreshResp with
  | .error _ =>
      let (st1, ev) := clearAuthState st
      (false, st1, [.call .refreshReq, ev])
  | .ok tr =>
      let st1 : AuthState :=
        { st with session := { st.session with accessToken := some tr.accessToken,
                                               refreshToken := some tr.refreshToken } }
      match meResp with
      | .error _ =>
          let (st2, ev) := clearAuthState st1
          (false, st2, [.call .refreshReq, .call .meReq, ev])
      | .ok user =>
          let (st2, ev) := setAuthState st1 user tr.accessToken tr.refreshToken
          (true, st2, [.call .refreshReq, .call .meReq, ev])

/-- `AuthModule.refreshSession`: falsy refresh token returns false with no
call; an already-pending refresh is joined (its promise returned, no new
call); otherwise `doRefresh` runs under the promise slot, which the
`finally` clears once it settles. -/
def refreshSession (refreshResp : Except AuthErr AuthTokenResponse) (meResp : Except AuthErr User)
    (st : AuthState) : Bool × AuthState × List AuthEvent :=
  if strFalsy st.session.refreshToken then (false, st, [])
  else
    match st.pending with
    | some b => (b, st, [])
    | none =>
        let (b, st1, evs) := doRefresh refreshResp meResp st
        (b, { st1 with pending := none }, evs)

/-- The catch guard of `AuthModule.me`:
`error instanceof MitraApiError && error.status === 401`. -/
def isApi401 : AuthErr → Bool
  | .api s => s == 401
  | .other => false

/-- `AuthModule.me`: falsy access token returns null with no call; on
success only `_currentUser` is replaced, persisted and broadcast; a
`MitraApiError` with status 401 clears the whole session; any other
rejection leaves the state untouched.  Null is returned in every failure
case. -/
def me (meResp : Except AuthErr User) (st : AuthState) :
    Option User × AuthState × List AuthEvent :=
  if strFalsy st.session.accessToken then (none, st, [])
  else
    match meResp with
    | .ok user =>
        let st1 : AuthState := { st with session := { st.session with currentUser := some user } }
        let st2 := saveToStorage st1
        (some user, st2, [.call .meReq, .notify (some user)])
    | .error err =>
        if isApi401 err then
          let (st1, ev) := clearAuthState st
          (none, st1, [.call .meReq, ev])
        else (none, st, [.call .meReq])

/-- `AuthModule.setToken`: overwrite the access token only, optionally
persisting (default true). -/
def setToken (token : String) (save : Bool) (st : AuthState) : AuthState :=
  let st1 : AuthState := { st with session := { st.session with accessToken := some token } }
  if save then saveToStorage st1 else st1

/-- The state a task observes while the initiating refresh is suspended at
its network call: the session fields still hold their entry values and
`refreshPromise` holds the in-flight operation, whose eventual value is
already determined by the network oracle. -/
def midRefreshState (refreshResp : Except AuthErr AuthTokenResponse)
    (meResp : Except AuthErr User) (st : AuthState) : AuthState :=
  { st with pending := some (doRefresh refreshResp meResp st).1 }

/-- Cooperative-interleaving model of `k` concurrent `refreshSession`
callers joining one initiating call: the initiator runs from `st`; each
joiner enters `refreshSession` at the suspension window where the
initiator's refresh is pending.  Returned: the initiator's run and each
joiner's (outcome, events). -/
def concurrentRefresh (k : Nat) (refreshResp : Except AuthErr AuthTokenResponse)
    (meResp : Except AuthErr User) (st : AuthState) :
    (Bool × AuthState × List AuthEvent) × List (Bool × List AuthEvent) :=
  let initiator := refreshSession refreshResp meResp st
  let joiner := fun (_ : Nat) =>
    let j := refreshSession refreshResp meResp (midRefreshState refreshResp meResp st)
    (j.1, j.2.2)
  (initiator, (List.range k).map joiner)

/-- Whether an event is a call to the refresh endpoint. -/
def isRefreshCall : AuthEvent → Bool
  | .call .refreshReq => true
  | _ => false

/-- Number of calls to the refresh endpoint in an event trace. -/
def refreshCallCount (evs : List AuthEvent) : Nat :=
  (evs.filter isRefreshCall).length

/-- The states of one `AuthModule` storage slot and instance reachable by
completed public operations (any oracle outcomes), including tearing the
instance down and constructing a new one over the same slot. -/
inductive Reachable : AuthState → Prop
  | init : Reachable (construct none)
  | reconstruct {s} : Reachable s → Reachable (construct s.storage)
  | stepSignIn {s} (o1 : Except AuthErr AuthTokenResponse) (o2 : Except AuthErr User) :
      Reachable s → Reachable (signIn o1 o2 s).2.1
  | stepSignUp {s} (o0 : Except AuthErr Unit) (o1 : Except AuthErr AuthTokenResponse)
      (o2 : Except AuthErr User) : Reachable s → Reachable (signUp o0 o1 o2 s).2.1
  | stepSignOut {s} : Reachable s → Reachable (signOut s).1
  | stepRefresh {s} (o1 : Except AuthErr AuthTokenResponse) (o2 : Except AuthErr User) :
      Reachable s → Reachable (refreshSession o1 o2 s).2.1
  | stepMe {s} (o : Except AuthErr User) : Reachable s → Reachable (me o s).2.1
  | stepSetToken {s} (t : String) (save : Bool) : Reachable s → Reachable (setToken t save s)

/- ------------------------------------------------------------------ -/
/- Auth-state listeners                                                -/
/- ------------------------------------------------------------------ -/

/-- One registered `AuthStateChangeCallback`, identified by a tag and
modeled by whether it raises on a given payload. -/
structure ListenerM where
  id : Nat
  throwsOn : Option User → Bool

/-- Invoking one callback: it either returns or raises (carrying its tag
as the error value). -/
def runCallback (l : ListenerM) (u : Option User) : Except Nat Unit :=
  if l.throwsOn u then .error l.id else .ok ()

/-- Outcome of one `notifyListeners` broadcast: which listeners were
invoked and which errors were caught by the per-listener `try`/`catch`
(and logged). The function is total: no error escapes to the caller. -/
structure NotifyResult where
  invoked : List Nat
  caught : List Nat
deriving DecidableEq, Repr

/-- One iteration of the `forEach` in `notifyListeners`: the callback is
invoked inside `try { callback(user) } catch (error) { log }`, so a raise
is recorded and iteration continues. -/
def notifyStep (u : Option User) (acc : NotifyResult) (l : ListenerM) : NotifyResult :=
  match runCallback l u with
  | .ok _ => { acc with invoked := acc.invoked ++ [l.id] }
  | .error e => { invoked := acc.invoked ++ [l.id], caught := acc.caught ++ [e] }

/-- `AuthModule.notifyListeners`: `forEach` over the registered callbacks,
each invocation wrapped in `try`/`catch`. -/
def notifyListeners (ls : List ListenerM) (u : Option User) : NotifyResult :=
  ls.foldl (notifyStep u) { invoked := [], caught := [] }

/-- `AuthModule.onAuthStateChange`: the callback is added to the set, then
invoked immediately with the current user — with no surrounding
`try`/`catch`, so the second component is the raw outcome of that
invocation as seen by the subscriber. -/
def onAuthStateChange (ls : List ListenerM) (u : Option User) (cb : ListenerM) :
    List ListenerM × Except Nat Unit :=
  (ls ++ [cb], runCallback cb u)

/- ------------------------------------------------------------------ -/
/- Helper lemmas                                                       -/
/- ------------------------------------------------------------------ -/

theorem mkApiError_status (s : Nat) (b : Option BodyVal) : (mkApiError s b).status = s := by
  cases b <;> rfl

theorem mkFetchCall_falsy_body (cfg : HttpClientCfg) (path : String) (opts : RequestOptions)
    (v : JsVal) (tok : Option String) (hv : v.truthy = false) :
    mkFetchCall cfg path { opts with body := v } tok
      = mkFetchCall cfg path { opts with body := .undef } tok := by
  simp only [mkFetchCall, hv]
  rfl

theorem singleAttempt_calls (cfg : HttpClientCfg) (net : Nat → NetResponse)
    (tok : Nat → Option String) (path : String) (opts : RequestOptions) (i : Nat) :
    (requestAux cfg net tok path opts 0 i).calls = [mkFetchCall cfg path opts (tok i)] := by
  unfold requestAux
  cases net i with
  | netFail => rfl
  | reply status body =>
      simp only [handleOk, finishFail]
      split
      · split
        · rfl
        · cases body <;> rfl
      · rfl

/- ------------------------------------------------------------------ -/
/- Claim theorems                                                      -/
/- ------------------------------------------------------------------ -/

/-- C8: Persistence round-trip — constructing a new store over the slot
written by `saveToStorage` restores exactly the persisted user record,
access token and refresh token. -/
theorem storedSession_roundTrip (st : AuthState) :
    (construct (saveToStorage st).storage).session = st.session := rfl

/-- C10: a falsy `body` argument (0, empty string, false, null, undefined)
results in a request with no body at all — the whole execution is the
same as if `body` were omitted; only a truthy body is serialized. -/
theorem request_falsy_body (cfg : HttpClientCfg) (net : Nat → NetResponse)
    (tok : Nat → Option String) (path : String) (opts : RequestOptions) (v : JsVal)
    (hv : v.truthy = false) :
    (mkFetchCall cfg path { opts with body := v } (tok 0)).body = none
    ∧ request cfg net tok path { opts with body := v }
        = request cfg net tok path { opts with body := .undef } := by
  constructor
  · simp [mkFetchCall, hv]
  · show requestAux _ _ _ _ _ 1 0 = requestAux _ _ _ _ _ 1 0
    have key : ∀ retries i, requestAux cfg net tok path { opts with body := v } retries i
        = requestAux cfg net tok path { opts with body := .undef } retries i := by
      intro retries
      induction retries with
      | zero =>
          intro i
          unfold requestAux
          rw [mkFetchCall_falsy_body cfg path opts v (tok i) hv]
      | succ r ih =>
          intro i
          unfold requestAux
          rw [mkFetchCall_falsy_body cfg path opts v (tok i) hv, ih (i + 1)]
    exact key 1 0

/-- Witness for C10 at the concrete falsy body 0. -/
theorem request_falsy_body_witness :
    (JsVal.num 0).truthy = false
    ∧ (mkFetchCall { baseUrl := "http://b" } "/p"
          { method := .post, body := .num 0 } none).body = none
    ∧ request { baseUrl := "http://b" } (fun _ => .reply 200 (some ⟨none, none, 0⟩))
        (fun _ => none) "/p" { method := .post, body := .num 0 }
        = request { baseUrl := "http://b" } (fun _ => .reply 200 (some ⟨none, none, 0⟩))
            (fun _ => none) "/p" { method := .post, body := .undef } := by
  refine ⟨by decide, ?_⟩
  exact request_falsy_body { baseUrl := "http://b" } (fun _ => .reply 200 (some ⟨none, none, 0⟩))
    (fun _ => none) "/p" { method := .post } (.num 0) (by decide)

/-- C2 counterexample: a `signIn` whose token request succeeds and whose
current-user fetch then fails leaves the in-memory access and refresh
tokens set to the new pair — the Session is not what it was before the
failed call, refuting "no partial commit is observable". -/
theorem signIn_atomicity_counterexample :
    (signIn (.ok ⟨"t1", "r1", "bearer"⟩) (.error (.api 500)) (construct none)).1
        = .error (.api 500)
    ∧ (signIn (.ok ⟨"t1", "r1", "bearer"⟩) (.error (.api 500)) (construct none)).2.1.session
        ≠ (construct none).session := ⟨rfl, by decide⟩

/-- C2 (amended): if the token request fails, the Session, storage slot
and notifications are exactly unchanged; if the token request succeeds
and the current-user fetch fails, the user record, storage slot and
notifications are unchanged but the in-memory access and refresh tokens
have already been overwritten with the pair from the token response (an
unpersisted partial commit of the tokens is observable). -/
theorem signIn_failure_commit (st : AuthState) (tr : AuthTokenResponse) (e : AuthErr)
    (mr : Except AuthErr User) :
    signIn (.error e) mr st = (.error e, st, [.call .tokenReq])
    ∧ signIn (.ok tr) (.error e) st
        = (.error e,
           { st with session := { st.session with accessToken := some tr.accessToken,
                                                  refreshToken := some tr.refreshToken } },
           [.call .tokenReq, .call .meReq]) := ⟨rfl, rfl⟩

/-- C3 counterexample: `setToken` is a listed public operation, and from
the freshly constructed store it yields a reachable state holding an
access token with no user record — refuting "both present or both
absent". -/
theorem sessionInvariant_counterexample :
    Reachable (setToken "tok" true (construct none))
    ∧ ¬((setToken "tok" true (construct none)).session.currentUser.isSome
          ↔ (setToken "tok" true (construct none)).session.accessToken.isSome) :=
  ⟨Reachable.stepSetToken "tok" true Reachable.init, by decide⟩

/-- C6: while an access token is held, a 401 from the current-user fetch
clears the Session entirely (memory and storage) and `me` returns null;
any other failure — server error or non-HTTP rejection — leaves the
state exactly unchanged and returns null. -/
theorem me_failure_handling (st : AuthState) (e : AuthErr)
    (htok : strFalsy st.session.accessToken = false) :
    (e = .api 401 →
        me (.error e) st
          = (none,
             { session := { currentUser := none, accessToken := none, refreshToken := none },
               storage := none, pending := st.pending },
             [.call .meReq, .notify none]))
    ∧ (e ≠ .api 401 → me (.error e) st = (none, st, [.call .meReq])) := by
  constructor
  · rintro rfl
    simp [me, htok, clearAuthState, isApi401]
  · intro hne
    have h401 : isApi401 e = false := by
      cases e with
      | api s =>
          have : s ≠ 401 := fun h => hne (by rw [h])
          simp [isApi401, this]
      | other => rfl
    simp [me, htok, h401]

/-- Witness for C6 at a concrete authenticated state and failures. -/
theorem me_failure_handling_witness :
    strFalsy (signIn (.ok ⟨"t1", "r1", "bearer"⟩) (.ok ⟨"u1", "org1", "a@b.com", none⟩)
        (construct none)).2.1.session.accessToken = false
    ∧ (AuthErr.api 401 = .api 401 →
        me (.error (.api 401))
            (signIn (.ok ⟨"t1", "r1", "bearer"⟩) (.ok ⟨"u1", "org1", "a@b.com", none⟩)
              (construct none)).2.1
          = (none,
             { session := { currentUser := none, accessToken := none, refreshToken := none },
               storage := none,
               pending := (signIn (.ok ⟨"t1", "r1", "bearer"⟩)
                   (.ok ⟨"u1", "org1", "a@b.com", none⟩) (construct none)).2.1.pending },
             [.call .meReq, .notify none]))
    ∧ (AuthErr.api 401 ≠ .api 401 →
        me (.error (.api 401))
            (signIn (.ok ⟨"t1", "r1", "bearer"⟩) (.ok ⟨"u1", "org1", "a@b.com", none⟩)
              (construct none)).2.1
          = (none,
             (signIn (.ok ⟨"t1", "r1", "bearer"⟩) (.ok ⟨"u1", "org1", "a@b.com", none⟩)
               (construct none)).2.1,
             [.call .meReq])) :=
  ⟨by decide,
   me_failure_handling
     (signIn (.ok ⟨"t1", "r1", "bearer"⟩) (.ok ⟨"u1", "org1", "a@b.com", none⟩)
       (construct none)).2.1
     (.api 401) (by decide)⟩

/-- C4: with no refresh token held, `refreshSession` returns false with no
network call and no state change; when a refresh actually runs, the
pending marker is clear once it settles, a false outcome comes with the
Session cleared entirely (memory and storage), and a true outcome comes
with a freshly committed Session built from the refresh response. -/
theorem refreshSession_outcomes (rr : Except AuthErr AuthTokenResponse)
    (mr : Except AuthErr User) (st : AuthState) (hp : st.pending = none) :
    (st.session.refreshToken = none → refreshSession rr mr st = (false, st, []))
    ∧ (strFalsy st.session.refreshToken = false →
        (refreshSession rr mr st).2.1.pending = none
        ∧ ((refreshSession rr mr st).1 = false →
            (refreshSession rr mr st).2.1.session
                = { currentUser := none, accessToken := none, refreshToken := none }
            ∧ (refreshSession rr mr st).2.1.storage = none)
        ∧ ((refreshSession rr mr st).1 = true →
            ∃ tr u, rr = .ok tr ∧ mr = .ok u
              ∧ (refreshSession rr mr st).2.1.session
                  = { currentUser := some u, accessToken := some tr.accessToken,
                      refreshToken := some tr.refreshToken }
              ∧ (refreshSession rr mr st).2.1.storage
                  = some { user := some u, token := some tr.accessToken,
                           refreshToken := some (some tr.refreshToken) })) := by
  constructor
  · intro h
    simp [refreshSession, h, strFalsy]
  · intro h
    cases rr with
    | error e =>
        simp [refreshSession, h, hp, doRefresh, clearAuthState]
    | ok tr =>
        cases mr with
        | error e =>
            simp [refreshSession, h, hp, doRefresh, clearAuthState]
        | ok u =>
            simp [refreshSession, h, hp, doRefresh, setAuthState, saveToStorage]

/-- Witness for C4 at a concrete authenticated state. -/
theorem refreshSession_outcomes_witness :
    (signIn (.ok ⟨"t1", "r1", "bearer"⟩) (.ok ⟨"u1", "org1", "a@b.com", none⟩)
        (construct none)).2.1.pending = none
    ∧ ((signIn (.ok ⟨"t1", "r1", "bearer"⟩) (.ok ⟨"u1", "org1", "a@b.com", none⟩)
          (construct none)).2.1.session.refreshToken = none →
        refreshSession (.error .other) (.error .other)
            (signIn (.ok ⟨"t1", "r1", "bearer"⟩) (.ok ⟨"u1", "org1", "a@b.com", none⟩)
              (construct none)).2.1
          = (false,
             (signIn (.ok ⟨"t1", "r1", "bearer"⟩) (.ok ⟨"u1", "org1", "a@b.com", none⟩)
               (construct none)).2.1, []))
    ∧ (strFalsy (signIn (.ok ⟨"t1", "r1", "bearer"⟩) (.ok ⟨"u1", "org1", "a@b.com", none⟩)
          (construct none)).2.1.session.refreshToken = false →
        (refreshSession (.error .other) (.error .other)
            (signIn (.ok ⟨"t1", "r1", "bearer"⟩) (.ok ⟨"u1", "org1", "a@b.com", none⟩)
              (construct none)).2.1).2.1.pending = none
        ∧ ((refreshSession (.error .other) (.error .other)
              (signIn (.ok ⟨"t1", "r1", "bearer"⟩) (.ok ⟨"u1", "org1", "a@b.com", none⟩)
                (construct none)).2.1).1 = false →
            (refreshSession (.error .other) (.error .other)
                (signIn (.ok ⟨"t1", "r1", "bearer"⟩) (.ok ⟨"u1", "org1", "a@b.com", none⟩)
                  (construct none)).2.1).2.1.session
                = { currentUser := none, accessToken := none, refreshToken := none }
            ∧ (refreshSession (.error .other) (.error .other)
                (signIn (.ok ⟨"t1", "r1", "bearer"⟩) (.ok ⟨"u1", "org1", "a@b.com", none⟩)
                  (construct none)).2.1).2.1.storage = none)
        ∧ ((refreshSession (.error .other) (.error .other)
              (signIn (.ok ⟨"t1", "r1", "bearer"⟩) (.ok ⟨"u1", "org1", "a@b.com", none⟩)
                (construct none)).2.1).1 = true →
            ∃ tr u, (Except.error .other : Except AuthErr AuthTokenResponse) = .ok tr
              ∧ (Except.error .other : Except AuthErr User) = .ok u
              ∧ (refreshSession (.error .other) (.error .other)
                  (signIn (.ok ⟨"t1", "r1", "bearer"⟩) (.ok ⟨"u1", "org1", "a@b.com", none⟩)
                    (construct none)).2.1).2.1.session
                  = { currentUser := some u, accessToken := some tr.accessToken,
                      refreshToken := some tr.refreshToken }
              ∧ (refreshSession (.error .other) (.error .other)
                  (signIn (.ok ⟨"t1", "r1", "bearer"⟩) (.ok ⟨"u1", "org1", "a@b.com", none⟩)
                    (construct none)).2.1).2.1.storage
                  = some { user := some u, token := some tr.accessToken,
                           refreshToken := some (some tr.refreshToken) })) :=
  ⟨by decide,
   refreshSession_outcomes (.error .other) (.error .other)
     (signIn (.ok ⟨"t1", "r1", "bearer"⟩) (.ok ⟨"u1", "org1", "a@b.com", none⟩)
       (construct none)).2.1
     (by decide)⟩

/-- C5: while one refresh is pending, every concurrent `refreshSession`
caller joins it — each receives the same boolean outcome as the pending
operation and adds no events — and exactly one network call to the
refresh endpoint occurs in the whole episode. -/
theorem refreshSession_singleFlight (k : Nat) (rr : Except AuthErr AuthTokenResponse)
    (mr : Except AuthErr User) (st : AuthState)
    (hrt : strFalsy st.session.refreshToken = false) (hp : st.pending = none) :
    (∀ jr ∈ (concurrentRefresh k rr mr st).2,
        jr.1 = (concurrentRefresh k rr mr st).1.1 ∧ jr.2 = ([] : List AuthEvent))
    ∧ refreshCallCount (concurrentRefresh k rr mr st).1.2.2 = 1 := by
  have hjoin : refreshSession rr mr (midRefreshState rr mr st)
      = ((doRefresh rr mr st).1, midRefreshState rr mr st, []) := by
    simp [refreshSession, midRefreshState, hrt]
  have hinit1 : (refreshSession rr mr st).1 = (doRefresh rr mr st).1 := by
    simp [refreshSession, hrt, hp]
  have hinitev : (refreshSession rr mr st).2.2 = (doRefresh rr mr st).2.2 := by
    simp [refreshSession, hrt, hp]
  constructor
  · intro jr hjr
    simp only [concurrentRefresh, List.mem_map] at hjr
    obtain ⟨n, -, rfl⟩ := hjr
    simp [concurrentRefresh, hjoin, hinit1]
  · show refreshCallCount (refreshSession rr mr st).2.2 = 1
    rw [hinitev]
    cases rr with
    | error e => simp [doRefresh, clearAuthState, refreshCallCount, isRefreshCall]
    | ok tr =>
        cases mr with
        | error e =>
            simp [doRefresh, clearAuthState, refreshCallCount, isRefreshCall]
        | ok u =>
            simp [doRefresh, setAuthState, refreshCallCount, isRefreshCall]

/-- Witness for C5 at a concrete authenticated state, three joiners. -/
theorem refreshSession_singleFlight_witness :
    strFalsy (signIn (.ok ⟨"t1", "r1", "bearer"⟩) (.ok ⟨"u1", "org1", "a@b.com", none⟩)
        (construct none)).2.1.session.refreshToken = false
    ∧ (∀ jr ∈ (concurrentRefresh 3 (.ok ⟨"t2", "r2", "bearer"⟩)
          (.ok ⟨"u1", "org1", "a@b.com", none⟩)
          (signIn (.ok ⟨"t1", "r1", "bearer"⟩) (.ok ⟨"u1", "org1", "a@b.com", none⟩)
            (construct none)).2.1).2,
        jr.1 = (concurrentRefresh 3 (.ok ⟨"t2", "r2", "bearer"⟩)
            (.ok ⟨"u1", "org1", "a@b.com", none⟩)
            (signIn (.ok ⟨"t1", "r1", "bearer"⟩) (.ok ⟨"u1", "org1", "a@b.com", none⟩)
              (construct none)).2.1).1.1
        ∧ jr.2 = ([] : List AuthEvent))
    ∧ refreshCallCount (concurrentRefresh 3 (.ok ⟨"t2", "r2", "bearer"⟩)
        (.ok ⟨"u1", "org1", "a@b.com", none⟩)
        (signIn (.ok ⟨"t1", "r1", "bearer"⟩) (.ok ⟨"u1", "org1", "a@b.com", none⟩)
          (construct none)).2.1).1.2.2 = 1 :=
  ⟨by decide,
   refreshSession_singleFlight 3 (.ok ⟨"t2", "r2", "bearer"⟩)
     (.ok ⟨"u1", "org1", "a@b.com", none⟩)
     (signIn (.ok ⟨"t1", "r1", "bearer"⟩) (.ok ⟨"u1", "org1", "a@b.com", none⟩)
       (construct none)).2.1
     (by decide) (by decide)⟩

theorem singleAttempt_eq (cfg : HttpClientCfg) (net : Nat → NetResponse)
    (tok : Nat → Option String) (path : String) (opts : RequestOptions) (i : Nat) :
    singleAttempt cfg net tok path opts i = requestAux cfg net tok path opts 0 i := rfl

theorem request_401_retried (cfg : HttpClientCfg) (net : Nat → NetResponse)
    (tok : Nat → Option String) (path : String) (opts : RequestOptions) (b : Option BodyVal)
    (h0 : net 0 = .reply 401 b) (hcb : cfg.onUnauthorized = some true) :
    request cfg net tok path opts
      = { outcome := (singleAttempt cfg net tok path opts 1).outcome,
          calls := mkFetchCall cfg path opts (tok 0)
              :: (singleAttempt cfg net tok path opts 1).calls,
          hookCalls := (singleAttempt cfg net tok path opts 1).hookCalls } := by
  rw [singleAttempt_eq, request]
  simp only [requestAux]
  rw [h0, hcb]
  norm_num

theorem request_401_noCallback (cfg : HttpClientCfg) (net : Nat → NetResponse)
    (tok : Nat → Option String) (path : String) (opts : RequestOptions) (b : Option BodyVal)
    (h0 : net 0 = .reply 401 b) (hcb : cfg.onUnauthorized = none) :
    request cfg net tok path opts = finishFail cfg 401 b (mkFetchCall cfg path opts (tok 0)) := by
  rw [request]
  unfold requestAux
  rw [h0, hcb]
  norm_num

/-- C1: a request answered 401 on its first (non-retry) attempt issues,
when the unauthorized-callback is configured and resolves true, exactly
two network calls agreeing on URL (hence path), method and body, and
delivers the result of processing the second call; with no callback
configured it issues exactly one network call and raises an API Error
with status 401. -/
theorem httpClient_request_401 (cfg : HttpClientCfg) (net : Nat → NetResponse)
    (tok : Nat → Option String) (path : String) (opts : RequestOptions) (b : Option BodyVal)
    (h0 : net 0 = .reply 401 b) :
    (cfg.onUnauthorized = some true →
        (request cfg net tok path opts).calls
            = [mkFetchCall cfg path opts (tok 0), mkFetchCall cfg path opts (tok 1)]
        ∧ (mkFetchCall cfg path opts (tok 0)).url = (mkFetchCall cfg path opts (tok 1)).url
        ∧ (mkFetchCall cfg path opts (tok 0)).method = (mkFetchCall cfg path opts (tok 1)).method
        ∧ (mkFetchCall cfg path opts (tok 0)).body = (mkFetchCall cfg path opts (tok 1)).body
        ∧ (request cfg net tok path opts).outcome
            = (singleAttempt cfg net tok path opts 1).outcome)
    ∧ (cfg.onUnauthorized = none →
        (request cfg net tok path opts).calls = [mkFetchCall cfg path opts (tok 0)]
        ∧ ∃ e, (request cfg net tok path opts).outcome = .apiError e ∧ e.status = 401) := by
  constructor
  · intro hcb
    rw [request_401_retried cfg net tok path opts b h0 hcb]
    refine ⟨?_, rfl, rfl, rfl, rfl⟩
    rw [singleAttempt_eq, singleAttempt_calls]
  · intro hcb
    rw [request_401_noCallback cfg net tok path opts b h0 hcb]
    exact ⟨rfl, mkApiError 401 b, rfl, mkApiError_status 401 b⟩

/-- Witness for C1 at a concrete client and response sequence. -/
theorem httpClient_request_401_witness :
    ((fun i => if i = 0 then NetResponse.reply 401 none
               else .reply 200 (some ⟨none, none, 5⟩)) 0 : NetResponse) = .reply 401 none
    ∧ ({ baseUrl := "http://b", onUnauthorized := some true } : HttpClientCfg).onUnauthorized
        = some true
    ∧ (request { baseUrl := "http://b", onUnauthorized := some true }
          (fun i => if i = 0 then .reply 401 none else .reply 200 (some ⟨none, none, 5⟩))
          (fun _ => some "tk") "/p" {}).calls
        = [mkFetchCall { baseUrl := "http://b", onUnauthorized := some true } "/p" {}
             ((fun _ => some "tk") 0),
           mkFetchCall { baseUrl := "http://b", onUnauthorized := some true } "/p" {}
             ((fun _ => some "tk") 1)]
    ∧ (request { baseUrl := "http://b", onUnauthorized := some true }
          (fun i => if i = 0 then .reply 401 none else .reply 200 (some ⟨none, none, 5⟩))
          (fun _ => some "tk") "/p" {}).outcome
        = (singleAttempt { baseUrl := "http://b", onUnauthorized := some true }
            (fun i => if i = 0 then .reply 401 none else .reply 200 (some ⟨none, none, 5⟩))
            (fun _ => some "tk") "/p" {} 1).outcome := by
  refine ⟨by decide, by decide, ?_⟩
  have h := (httpClient_request_401 { baseUrl := "http://b", onUnauthorized := some true }
    (fun i => if i = 0 then .reply 401 none else .reply 200 (some ⟨none, none, 5⟩))
    (fun _ => some "tk") "/p" {} none (by decide)).1 (by decide)
  exact ⟨h.1, h.2.2.2.2⟩

theorem request_fail_noRetry (cfg : HttpClientCfg) (net : Nat → NetResponse)
    (tok : Nat → Option String) (path : String) (opts : RequestOptions) (s : Nat)
    (b : Option BodyVal) (h0 : net 0 = .reply s b) (hs : ¬(200 ≤ s ∧ s < 300))
    (hcb : s = 401 → cfg.onUnauthorized ≠ some true) :
    request cfg net tok path opts = finishFail cfg s b (mkFetchCall cfg path opts (tok 0)) := by
  rw [request]
  simp only [requestAux]
  rw [h0]
  simp only [if_neg hs]
  cases hcbv : cfg.onUnauthorized with
  | none => rfl
  | some refreshed =>
      by_cases h401 : s = 401
      · have : refreshed = false := by
          subst h401
          have := hcb rfl
          rw [hcbv] at this
          cases refreshed with
          | false => rfl
          | true => exact absurd rfl this
        subst this
        simp [h401]
      · simp [h401]

theorem singleAttempt_fail (cfg : HttpClientCfg) (net : Nat → NetResponse)
    (tok : Nat → Option String) (path : String) (opts : RequestOptions) (i s : Nat)
    (b : Option BodyVal) (h : net i = .reply s b) (hs : ¬(200 ≤ s ∧ s < 300)) :
    singleAttempt cfg net tok path opts i
      = finishFail cfg s b (mkFetchCall cfg path opts (tok i)) := by
  rw [singleAttempt_eq]
  simp only [requestAux]
  rw [h]
  simp only [if_neg hs]

theorem singleAttempt_ok_hook (cfg : HttpClientCfg) (net : Nat → NetResponse)
    (tok : Nat → Option String) (path : String) (opts : RequestOptions) (i s : Nat)
    (b : Option BodyVal) (h : net i = .reply s b) (hs : 200 ≤ s ∧ s < 300) :
    (singleAttempt cfg net tok path opts i).hookCalls = [] := by
  rw [singleAttempt_eq]
  simp only [requestAux]
  rw [h]
  simp only [if_pos hs]
  unfold handleOk
  split
  · rfl
  · cases b <;> rfl

/-- C7: a non-2xx response not resolved by the 401 retry path raises an
API Error with message = the parsed body's `message` field (or the
fallback `Request failed with status N` when the field is absent or
empty, or the body unparseable), status = the HTTP status, code = the
body's `error_code` when present, details = the parsed body (or an empty
structure when unparseable); the configured global error hook receives
exactly this error exactly once per ultimately failing request, and is
not invoked at all when a 401 first attempt is retried into a 2xx. -/
theorem apiError_construction_and_hook (cfg : HttpClientCfg) (net : Nat → NetResponse)
    (tok : Nat → Option String) (path : String) (opts : RequestOptions)
    (hk : cfg.hasOnError = true) :
    (∀ s b, net 0 = .reply s b → ¬(200 ≤ s ∧ s < 300) →
        (s = 401 → cfg.onUnauthorized ≠ some true) →
        ∃ e, (request cfg net tok path opts).outcome = .apiError e
          ∧ (request cfg net tok path opts).hookCalls = [e]
          ∧ e.status = s
          ∧ e.message = (match b with
              | some bb =>
                  match bb.message with
                  | some m => if m = "" then fallbackMsg s else m
                  | none => fallbackMsg s
              | none => fallbackMsg s)
          ∧ e.code = (match b with | some bb => bb.errorCode | none => none)
          ∧ e.details = (match b with | some bb => ErrDetails.parsed bb | none => .emptyObj))
    ∧ (∀ b s2 b2, net 0 = .reply 401 b → cfg.onUnauthorized = some true →
        net 1 = .reply s2 b2 → ¬(200 ≤ s2 ∧ s2 < 300) →
        (request cfg net tok path opts).outcome = .apiError (mkApiError s2 b2)
          ∧ (request cfg net tok path opts).hookCalls = [mkApiError s2 b2])
    ∧ (∀ b s2 b2, net 0 = .reply 401 b → cfg.onUnauthorized = some true →
        net 1 = .reply s2 b2 → 200 ≤ s2 ∧ s2 < 300 →
        (request cfg net tok path opts).hookCalls = []) := by
  refine ⟨?_, ?_, ?_⟩
  · intro s b h0 hs hcb
    rw [request_fail_noRetry cfg net tok path opts s b h0 hs hcb]
    refine ⟨mkApiError s b, rfl, by simp [finishFail, hk], mkApiError_status s b, ?_, ?_, ?_⟩
    · cases b with
      | none => rfl
      | some bb => rfl
    · cases b with
      | none => rfl
      | some bb => rfl
    · cases b with
      | none => rfl
      | some bb => rfl
  · intro b s2 b2 h0 hcb h1 hs2
    rw [request_401_retried cfg net tok path opts b h0 hcb,
        singleAttempt_fail cfg net tok path opts 1 s2 b2 h1 hs2]
    exact ⟨rfl, by simp [finishFail, hk]⟩
  · intro b s2 b2 h0 hcb h1 hs2
    rw [request_401_retried cfg net tok path opts b h0 hcb]
    exact singleAttempt_ok_hook cfg net tok path opts 1 s2 b2 h1 hs2

/-- Witness for C7: a 500 with a parseable body carrying message and
error_code, on a client with the hook configured and no
unauthorized-callback. -/
theorem apiError_construction_and_hook_witness :
    ({ baseUrl := "http://b", hasOnError := true } : HttpClientCfg).hasOnError = true
    ∧ ((fun _ => NetResponse.reply 500 (some ⟨some "boom", some "E", 7⟩)) 0 : NetResponse)
        = .reply 500 (some ⟨some "boom", some "E", 7⟩)
    ∧ ∃ e, (request { baseUrl := "http://b", hasOnError := true }
          (fun _ => .reply 500 (some ⟨some "boom", some "E", 7⟩))
          (fun _ => none) "/p" {}).outcome = .apiError e
        ∧ (request { baseUrl := "http://b", hasOnError := true }
            (fun _ => .reply 500 (some ⟨some "boom", some "E", 7⟩))
            (fun _ => none) "/p" {}).hookCalls = [e]
        ∧ e.status = 500
        ∧ e.message = (match (some ⟨some "boom", some "E", 7⟩ : Option BodyVal) with
            | some bb =>
                match bb.message with
                | some m => if m = "" then fallbackMsg 500 else m
                | none => fallbackMsg 500
            | none => fallbackMsg 500)
        ∧ e.code = (match (some ⟨some "boom", some "E", 7⟩ : Option BodyVal) with
            | some bb => bb.errorCode | none => none)
        ∧ e.details = (match (some ⟨some "boom", some "E", 7⟩ : Option BodyVal) with
            | some bb => ErrDetails.parsed bb | none => .emptyObj) :=
  ⟨rfl, rfl,
   (apiError_construction_and_hook { baseUrl := "http://b", hasOnError := true }
      (fun _ => .reply 500 (some ⟨some "boom", some "E", 7⟩)) (fun _ => none) "/p" {} rfl).1
     500 (some ⟨some "boom", some "E", 7⟩) rfl (by decide) (by decide)⟩

/-- The invariant C3 actually maintains: a held user record implies a held
access token, both in memory and in the stored record. -/
def sessionInv (st : AuthState) : Prop :=
  (st.session.currentUser.isSome → st.session.accessToken.isSome)
  ∧ ∀ rec, st.storage = some rec → rec.user.isSome → rec.token.isSome

theorem strFalsy_false_isSome {o : Option String} (h : strFalsy o = false) : o.isSome := by
  cases o with
  | none => exact absurd h (by simp [strFalsy])
  | some s => rfl

theorem inv_construct (slot : Option StoredAuth)
    (h : ∀ rec, slot = some rec → rec.user.isSome → rec.token.isSome) :
    sessionInv (construct slot) := by
  cases slot with
  | none => exact ⟨by simp [construct], by simp [construct]⟩
  | some rec =>
      refine ⟨fun hu => h rec rfl hu, fun rec2 h2 => ?_⟩
      simp only [construct, Option.some.injEq] at h2
      rw [← h2]
      exact h rec rfl

theorem inv_clear (st : AuthState) : sessionInv (clearAuthState st).1 := by
  exact ⟨by simp [clearAuthState], by simp [clearAuthState]⟩

theorem inv_set (st : AuthState) (u : User) (t r : String) :
    sessionInv (setAuthState st u t r).1 := by
  refine ⟨by simp [setAuthState, saveToStorage], fun rec h2 => ?_⟩
  simp only [setAuthState, saveToStorage, Option.some.injEq] at h2
  rw [← h2]
  intro
  rfl

theorem inv_signIn (o1 : Except AuthErr AuthTokenResponse) (o2 : Except AuthErr User)
    (st : AuthState) (h : sessionInv st) : sessionInv (signIn o1 o2 st).2.1 := by
  cases o1 with
  | error e => exact h
  | ok tr =>
      cases o2 with
      | error e => exact ⟨fun _ => rfl, h.2⟩
      | ok u => exact inv_set _ u tr.accessToken tr.refreshToken

theorem inv_doRefresh (o1 : Except AuthErr AuthTokenResponse) (o2 : Except AuthErr User)
    (st : AuthState) : sessionInv (doRefresh o1 o2 st).2.1 := by
  cases o1 with
  | error e =>
      exact ⟨by simp [doRefresh, clearAuthState], by simp [doRefresh, clearAuthState]⟩
  | ok tr =>
      cases o2 with
      | error e =>
          exact ⟨by simp [doRefresh, clearAuthState], by simp [doRefresh, clearAuthState]⟩
      | ok u =>
          refine ⟨by simp [doRefresh, setAuthState, saveToStorage], fun rec h2 => ?_⟩
          simp only [doRefresh, setAuthState, saveToStorage, Option.some.injEq] at h2
          rw [← h2]
          intro
          rfl

theorem inv_refresh (o1 : Except AuthErr AuthTokenResponse) (o2 : Except AuthErr User)
    (st : AuthState) (h : sessionInv st) : sessionInv (refreshSession o1 o2 st).2.1 := by
  unfold refreshSession
  split
  · exact h
  · split
    · exact h
    · have hd := inv_doRefresh o1 o2 st
      rcases hdr : doRefresh o1 o2 st with ⟨b, st1, evs⟩
      rw [hdr] at hd
      exact hd

theorem inv_me (o : Except AuthErr User) (st : AuthState) (h : sessionInv st) :
    sessionInv (me o st).2.1 := by
  unfold me
  split
  · exact h
  · next htok =>
      have htok' : strFalsy st.session.accessToken = false := by
        cases hv : strFalsy st.session.accessToken with
        | false => rfl
        | true => exact absurd hv htok
      cases o with
      | ok u =>
          refine ⟨fun _ => strFalsy_false_isSome htok', fun rec h2 => ?_⟩
          simp only [saveToStorage, Option.some.injEq] at h2
          rw [← h2]
          intro
          exact strFalsy_false_isSome htok'
      | error e =>
          by_cases h401 : isApi401 e
          · simp only [h401, if_true]
            exact inv_clear st
          · simp only [h401]
            simp only [Bool.false_eq_true, if_false]
            exact h

theorem inv_setToken (t : String) (save : Bool) (st : AuthState) (h : sessionInv st) :
    sessionInv (setToken t save st) := by
  unfold setToken
  split
  · refine ⟨fun _ => rfl, fun rec h2 => ?_⟩
    simp only [saveToStorage, Option.some.injEq] at h2
    rw [← h2]
    intro
    rfl
  · exact ⟨fun _ => rfl, h.2⟩

theorem reachable_inv (st : AuthState) (h : Reachable st) : sessionInv st := by
  induction h with
  | init => exact inv_construct none (by simp)
  | reconstruct h ih => exact inv_construct _ ih.2
  | stepSignIn o1 o2 h ih => exact inv_signIn o1 o2 _ ih
  | stepSignUp o0 o1 o2 h ih =>
      cases o0 with
      | error e => exact ih
      | ok v => exact inv_signIn o1 o2 _ ih
  | stepSignOut h ih => exact inv_clear _
  | stepRefresh o1 o2 h ih => exact inv_refresh o1 o2 _ ih
  | stepMe o h ih => exact inv_me o _ ih
  | stepSetToken t save h ih => exact inv_setToken t save _ ih

/-- C3 (amended): across every reachable state — including those produced
by `setToken` and by failed `signIn` runs — a held user record implies a
held access token, both in memory and in the stored record; the converse
direction of the claimed "both present or both absent" invariant fails,
since `setToken` installs an access token with no user record. -/
theorem sessionInvariant_amended (st : AuthState) (h : Reachable st) :
    (st.session.currentUser.isSome → st.session.accessToken.isSome)
    ∧ ∀ rec, st.storage = some rec → rec.user.isSome → rec.token.isSome :=
  reachable_inv st h

/-- Witness for C3 (amended) at a concrete signed-in reachable state. -/
theorem sessionInvariant_amended_witness :
    ((signIn (.ok ⟨"t1", "r1", "bearer"⟩) (.ok ⟨"u1", "org1", "a@b.com", none⟩)
          (construct none)).2.1.session.currentUser.isSome →
        (signIn (.ok ⟨"t1", "r1", "bearer"⟩) (.ok ⟨"u1", "org1", "a@b.com", none⟩)
          (construct none)).2.1.session.accessToken.isSome)
    ∧ ∀ rec, (signIn (.ok ⟨"t1", "r1", "bearer"⟩) (.ok ⟨"u1", "org1", "a@b.com", none⟩)
          (construct none)).2.1.storage = some rec →
        rec.user.isSome → rec.token.isSome :=
  sessionInvariant_amended
    (signIn (.ok ⟨"t1", "r1", "bearer"⟩) (.ok ⟨"u1", "org1", "a@b.com", none⟩)
      (construct none)).2.1
    (Reachable.stepSignIn (.ok ⟨"t1", "r1", "bearer"⟩)
      (.ok ⟨"u1", "org1", "a@b.com", none⟩) Reachable.init)

/-- C9 counterexample: at subscription time the immediate invocation of
the new callback is not guarded; a callback that raises propagates its
error to the subscriber (`onAuthStateChange` itself raises), refuting
"the raised error is reported rather than propagated" for that
invocation. -/
theorem listener_subscribe_propagates :
    (onAuthStateChange [] none ⟨7, fun _ => true⟩).2 = .error 7 := rfl

theorem notifyStep_fold (u : Option User) (ls : List ListenerM) :
    ∀ acc : NotifyResult,
      (ls.foldl (notifyStep u) acc).invoked = acc.invoked ++ ls.map (fun l => l.id)
      ∧ (ls.foldl (notifyStep u) acc).caught
          = acc.caught ++ (ls.filter (fun l => l.throwsOn u)).map (fun l => l.id) := by
  induction ls with
  | nil => intro acc; simp
  | cons l ls ih =>
      intro acc
      simp only [List.foldl_cons, List.map_cons, List.filter_cons]
      by_cases h : l.throwsOn u
      · have hstep : notifyStep u acc l
            = { invoked := acc.invoked ++ [l.id], caught := acc.caught ++ [l.id] } := by
          simp [notifyStep, runCallback, h]
        rw [hstep]
        obtain ⟨ih1, ih2⟩ := ih { invoked := acc.invoked ++ [l.id], caught := acc.caught ++ [l.id] }
        rw [ih1, ih2]
        simp [h]
      · have hstep : notifyStep u acc l
            = { invoked := acc.invoked ++ [l.id], caught := acc.caught } := by
          simp [notifyStep, runCallback, h]
        rw [hstep]
        obtain ⟨ih1, ih2⟩ := ih { invoked := acc.invoked ++ [l.id], caught := acc.caught }
        rw [ih1, ih2]
        simp [h]

/-- C9 (amended): for every broadcast through `notifyListeners` — every
notification after subscription — all registered listeners are invoked
regardless of raises, and every raise is caught and reported rather than
propagated; at subscription time, however, the immediate invocation is
unguarded, so a raising callback's error propagates to the subscriber
while the callback stays registered. -/
theorem listener_notification_amended (ls : List ListenerM) (u : Option User) (cb : ListenerM) :
    (notifyListeners ls u).invoked = ls.map (fun l => l.id)
    ∧ (notifyListeners ls u).caught = (ls.filter (fun l => l.throwsOn u)).map (fun l => l.id)
    ∧ (cb.throwsOn u = true →
        (onAuthStateChange ls u cb).1 = ls ++ [cb]
        ∧ (onAuthStateChange ls u cb).2 = .error cb.id) := by
  obtain ⟨h1, h2⟩ := notifyStep_fold u ls { invoked := [], caught := [] }
  refine ⟨?_, ?_, fun hth => ⟨rfl, ?_⟩⟩
  · rw [notifyListeners, h1]; rfl
  · rw [notifyListeners, h2]; rfl
  · simp [onAuthStateChange, runCallback, hth]

/-- Witness for C9 (amended): one well-behaved and one raising listener,
plus a raising subscription callback. -/
theorem listener_notification_amended_witness :
    (notifyListeners [⟨1, fun _ => false⟩, ⟨2, fun _ => true⟩] none).invoked = [1, 2]
    ∧ (notifyListeners [⟨1, fun _ => false⟩, ⟨2, fun _ => true⟩] none).caught = [2]
    ∧ ((⟨9, fun _ => true⟩ : ListenerM).throwsOn none = true →
        (onAuthStateChange [⟨1, fun _ => false⟩, ⟨2, fun _ => true⟩] none
            ⟨9, fun _ => true⟩).1
          = [⟨1, fun _ => false⟩, ⟨2, fun _ => true⟩] ++ [⟨9, fun _ => true⟩]
        ∧ (onAuthStateChange [⟨1, fun _ => false⟩, ⟨2, fun _ => true⟩] none
            ⟨9, fun _ => true⟩).2 = .error 9) :=
  listener_notification_amended [⟨1, fun _ => false⟩, ⟨2, fun _ => true⟩] none
    ⟨9, fun _ => true⟩

end SDK
